import Mathlib

/-!
Verification of the DataViz series-resolution and statistics engine.

The embedding models the TypeScript sources:
  src/utils/mathUtils.ts        (calculateMetrics)
  src/utils/colorUtils.ts       (CHART_COLORS, getNextColor)
  src/components/ChartVisualizer.tsx
      (getColumnData, xDomain, per-series data construction)

JavaScript numbers are modelled as exact rationals extended with the
special values NaN, +Infinity and -Infinity (IEEE-754 rounding and signed
zero are not modelled; every numeric example appearing in the claims is
exactly representable, so the idealisation does not change any verdict).
`Math.sqrt` lands in a real-valued copy of the same extended type.
-/

/-- Model of a JavaScript number: NaN, the two infinities, or a finite
value represented as an exact rational. -/
inductive JSNum where
  | nan : JSNum
  | posInf : JSNum
  | negInf : JSNum
  | fin (q : ℚ) : JSNum
deriving DecidableEq

namespace JSNum

/-- Model of the JavaScript `isNaN` test. -/
def isNaN : JSNum → Bool
  | nan => true
  | _ => false

/-- True exactly on finite values (used only in specification statements,
not in the embedded code, which tests `isNaN` alone). -/
def isFinite : JSNum → Bool
  | fin _ => true
  | _ => false

/-- Model of JavaScript unary minus. -/
def neg : JSNum → JSNum
  | nan => nan
  | posInf => negInf
  | negInf => posInf
  | fin q => fin (-q)

/-- Model of JavaScript `+` on numbers. -/
def add : JSNum → JSNum → JSNum
  | nan, _ => nan
  | _, nan => nan
  | posInf, negInf => nan
  | negInf, posInf => nan
  | posInf, _ => posInf
  | _, posInf => posInf
  | negInf, _ => negInf
  | _, negInf => negInf
  | fin a, fin b => fin (a + b)

/-- Model of JavaScript `-` on numbers. -/
def sub (a b : JSNum) : JSNum := add a (neg b)

/-- Model of JavaScript `*` on numbers. -/
def mul : JSNum → JSNum → JSNum
  | nan, _ => nan
  | _, nan => nan
  | posInf, posInf => posInf
  | posInf, negInf => negInf
  | negInf, posInf => negInf
  | negInf, negInf => posInf
  | posInf, fin q => if 0 < q then posInf else if q < 0 then negInf else nan
  | fin q, posInf => if 0 < q then posInf else if q < 0 then negInf else nan
  | negInf, fin q => if 0 < q then negInf else if q < 0 then posInf else nan
  | fin q, negInf => if 0 < q then negInf else if q < 0 then posInf else nan
  | fin a, fin b => fin (a * b)

/-- Model of JavaScript `/` on numbers (signed zero is not modelled:
division by the rational zero behaves like division by `+0`). -/
def div : JSNum → JSNum → JSNum
  | nan, _ => nan
  | _, nan => nan
  | posInf, posInf => nan
  | posInf, negInf => nan
  | negInf, posInf => nan
  | negInf, negInf => nan
  | posInf, fin q => if q < 0 then negInf else posInf
  | negInf, fin q => if q < 0 then posInf else negInf
  | fin _, posInf => fin 0
  | fin _, negInf => fin 0
  | fin a, fin b =>
      if b = 0 then (if a = 0 then nan else if 0 < a then posInf else negInf)
      else fin (a / b)

/-- Model of `Math.abs`. -/
def abs : JSNum → JSNum
  | nan => nan
  | posInf => posInf
  | negInf => posInf
  | fin q => fin |q|

/-- Model of `Math.min` on two arguments. -/
def min2 : JSNum → JSNum → JSNum
  | nan, _ => nan
  | _, nan => nan
  | negInf, _ => negInf
  | _, negInf => negInf
  | posInf, b => b
  | a, posInf => a
  | fin a, fin b => fin (min a b)

/-- Model of `Math.max` on two arguments. -/
def max2 : JSNum → JSNum → JSNum
  | nan, _ => nan
  | _, nan => nan
  | posInf, _ => posInf
  | _, posInf => posInf
  | negInf, b => b
  | a, negInf => a
  | fin a, fin b => fin (max a b)

/-- Model of the JavaScript `<=` comparison (false whenever a NaN is
involved). -/
def le : JSNum → JSNum → Bool
  | nan, _ => false
  | _, nan => false
  | negInf, _ => true
  | _, negInf => false
  | _, posInf => true
  | posInf, _ => false
  | fin a, fin b => decide (a ≤ b)

/-- Model of the JavaScript `===` comparison on numbers (false whenever a
NaN is involved; signed zero is not modelled). -/
def strictEq (a b : JSNum) : Bool :=
  if a.isNaN || b.isNaN then false else decide (a = b)

end JSNum

/-- Real-valued copy of `JSNum`, used for the result of `Math.sqrt`
(whose exact value is an irrational real in general). -/
inductive JSRNum where
  | nan : JSRNum
  | posInf : JSRNum
  | negInf : JSRNum
  | fin (x : ℝ) : JSRNum

/-- Model of `Math.sqrt`: NaN on NaN and on negative inputs (including
negative infinity), infinity on infinity, and the exact real square root
on nonnegative finite inputs. -/
noncomputable def jsSqrt : JSNum → JSRNum
  | JSNum.nan => JSRNum.nan
  | JSNum.posInf => JSRNum.posInf
  | JSNum.negInf => JSRNum.nan
  | JSNum.fin q => if q < 0 then JSRNum.nan else JSRNum.fin (Real.sqrt (q : ℝ))

/-! ## Cell values and numeric coercion

A `DataRow` in `src/types.ts` maps column names to `string | number |
null`.  A missing key reads as `undefined`.  The JavaScript `Number(...)`
coercion used throughout `ChartVisualizer.tsx` is modelled by `toNumber`.
-/

/-- A cell of a data row: `string | number | null` as in the `DataRow`
type of the source. -/
inductive CellValue where
  | null : CellValue
  | num (q : ℚ) : CellValue
  | str (s : String) : CellValue
deriving DecidableEq

/-- Value of a nonempty list of decimal digit characters (already
checked to be digits). -/
def digitsToNat (cs : List Char) : ℕ :=
  cs.foldl (fun a c => 10 * a + (c.toNat - 48)) 0

/-- Parse an unsigned decimal literal: digits with an optional single
decimal point, at least one digit overall (covers the forms `12`,
`12.5`, `.5`, `5.` accepted by the JavaScript `Number` coercion; the
hexadecimal and exponent forms, unused by the claims, are not
modelled). -/
def parseUnsignedDec (cs : List Char) : Option ℚ :=
  let intPart := cs.takeWhile Char.isDigit
  let rest := cs.dropWhile Char.isDigit
  match rest with
  | [] => if intPart.isEmpty then none else some (digitsToNat intPart : ℚ)
  | c :: fracPart =>
      if c = '.' ∧ fracPart.all Char.isDigit ∧ (intPart ≠ [] ∨ fracPart ≠ []) then
        some ((digitsToNat intPart : ℚ) +
          (digitsToNat fracPart : ℚ) / (10 : ℚ) ^ fracPart.length)
      else none

/-- Parse an optionally signed decimal literal. -/
def parseSignedDec : List Char → Option ℚ
  | '+' :: cs => parseUnsignedDec cs
  | '-' :: cs => (parseUnsignedDec cs).map (fun q => -q)
  | cs => parseUnsignedDec cs

/-- Remove leading and trailing whitespace from a character list. -/
def trimChars (cs : List Char) : List Char :=
  ((cs.dropWhile Char.isWhitespace).reverse.dropWhile Char.isWhitespace).reverse

/-- Model of the JavaScript `Number(string)` coercion: trims whitespace,
maps the empty string to `0`, recognises the infinity literals and
decimal literals, and yields NaN otherwise. -/
def jsStringToNumber (s : String) : JSNum :=
  let t := trimChars s.data
  if t = [] then JSNum.fin 0
  else if t = "Infinity".data ∨ t = "+Infinity".data then JSNum.posInf
  else if t = "-Infinity".data then JSNum.negInf
  else
    match parseSignedDec t with
    | some q => JSNum.fin q
    | none => JSNum.nan

/-- Model of `Number(v)` applied to the result of a row lookup: a missing
key (`undefined`) coerces to NaN, `null` coerces to `0`, numbers pass
through, and strings are parsed. -/
def toNumber : Option CellValue → JSNum
  | none => JSNum.nan
  | some CellValue.null => JSNum.fin 0
  | some (CellValue.num q) => JSNum.fin q
  | some (CellValue.str s) => jsStringToNumber s

/-! ## Data model (src/types.ts) -/

/-- A data row: an association list from column names to cell values
(JavaScript objects have no duplicate keys; lookup takes the first
match). -/
abbrev Row : Type := List (String × CellValue)

/-- Lookup of a column in a row; `none` models a missing key. -/
def rowGet (row : Row) (column : String) : Option CellValue :=
  List.lookup column row

/-- A loaded dataset, as in the `Dataset` interface of `src/types.ts`. -/
structure Dataset where
  id : String
  name : String
  data : List Row
  columns : List String
  color : String
deriving DecidableEq

/-- A (dataset id, column name) reference, as in the `ColumnRef`
interface. -/
structure ColumnRef where
  fileId : String
  column : String
deriving DecidableEq

/-- The left or right y-axis. -/
inductive AxisSide where
  | left : AxisSide
  | right : AxisSide
deriving DecidableEq

/-- Render kind of one series. -/
inductive SeriesType where
  | line : SeriesType
  | scatter : SeriesType
  | area : SeriesType
  | bar : SeriesType
deriving DecidableEq

/-- Chart kind. -/
inductive ChartType where
  | general : ChartType
  | diagonal : ChartType
deriving DecidableEq

/-- Configuration of one plotted series (`YColumnConfig`). -/
structure YColumnConfig where
  id : String
  colRef : ColumnRef
  xColRef : Option ColumnRef
  axis : AxisSide
  color : String
  type : SeriesType
  label : Option String

/-- Configuration of one chart (`ChartConfig`). -/
structure ChartConfig where
  id : String
  title : String
  type : ChartType
  xColRef : ColumnRef
  yColumns : List YColumnConfig
  showGrid : Bool
  showLegend : Bool
  showMetrics : Bool

/-- Result record of `calculateMetrics` (`CalculatedMetrics`). -/
structure CalculatedMetrics where
  seriesName : String
  xName : String
  mae : JSNum
  rmse : JSRNum
  r2 : JSNum
  n : ℕ

/-! ## MetricsEngine (src/utils/mathUtils.ts, calculateMetrics) -/

/-- The validity test of both loops of `calculateMetrics`, literally
`!isNaN(t) && !isNaN(p)` in the source. -/
def validPair (tp : JSNum × JSNum) : Bool := !tp.1.isNaN && !tp.2.isNaN

/-- The absolute difference `Math.abs(t - p)` accumulated into
`sumAbsDiff`. -/
def absDiff (tp : JSNum × JSNum) : JSNum := JSNum.abs (JSNum.sub tp.1 tp.2)

/-- The squared difference `diff * diff` accumulated into `sumSqDiff`. -/
def sqDiff (tp : JSNum × JSNum) : JSNum :=
  JSNum.mul (JSNum.sub tp.1 tp.2) (JSNum.sub tp.1 tp.2)

/-- The squared deviation `(t - meanTruth) * (t - meanTruth)` accumulated
into `sumSqTotal`. -/
def sqDev (meanTruth : JSNum) (tp : JSNum × JSNum) : JSNum :=
  JSNum.mul (JSNum.sub tp.1 meanTruth) (JSNum.sub tp.1 meanTruth)

/-- One iteration of the first loop of `calculateMetrics`, acting on the
accumulator `(sumAbsDiff, sumSqDiff, sumTruth, count)`. -/
def metricsStep (acc : JSNum × JSNum × JSNum × ℕ) (tp : JSNum × JSNum) :
    JSNum × JSNum × JSNum × ℕ :=
  if validPair tp then
    (JSNum.add acc.1 (absDiff tp),
     JSNum.add acc.2.1 (sqDiff tp),
     JSNum.add acc.2.2.1 tp.1,
     acc.2.2.2 + 1)
  else acc

/-- The first loop of `calculateMetrics` over the positionally zipped
pairs. -/
def metricsFold (pairs : List (JSNum × JSNum)) : JSNum × JSNum × JSNum × ℕ :=
  pairs.foldl metricsStep (JSNum.fin 0, JSNum.fin 0, JSNum.fin 0, 0)

/-- One iteration of the second loop of `calculateMetrics` (the R² pass),
given the already computed `meanTruth`. -/
def ssTotalStep (meanTruth : JSNum) (acc : JSNum) (tp : JSNum × JSNum) : JSNum :=
  if validPair tp then JSNum.add acc (sqDev meanTruth tp) else acc

/-- The second loop of `calculateMetrics`. -/
def ssTotalFold (pairs : List (JSNum × JSNum)) (meanTruth : JSNum) : JSNum :=
  pairs.foldl (ssTotalStep meanTruth) (JSNum.fin 0)

/-- Embedding of `calculateMetrics` from `src/utils/mathUtils.ts`:
returns `null` (here `none`) on an empty input or when no pair has both
components non-NaN, and otherwise the MAE, RMSE, R² and valid-pair count
computed over the zipped prefix of the two inputs. -/
noncomputable def calculateMetrics (xValues yValues : List JSNum)
    (seriesName xName : String) : Option CalculatedMetrics :=
  if xValues.length = 0 ∨ yValues.length = 0 then none
  else
    let pairs := xValues.zip yValues
    let acc := metricsFold pairs
    let sumAbsDiff := acc.1
    let sumSqDiff := acc.2.1
    let sumTruth := acc.2.2.1
    let count := acc.2.2.2
    if count = 0 then none
    else
      let meanTruth := JSNum.div sumTruth (JSNum.fin (count : ℚ))
      let sumSqTotal := ssTotalFold pairs meanTruth
      let mae := JSNum.div sumAbsDiff (JSNum.fin (count : ℚ))
      let rmse := jsSqrt (JSNum.div sumSqDiff (JSNum.fin (count : ℚ)))
      let r2 :=
        if JSNum.strictEq sumSqTotal (JSNum.fin 0) then JSNum.fin 0
        else JSNum.sub (JSNum.fin 1) (JSNum.div sumSqDiff sumSqTotal)
      some { seriesName := seriesName, xName := xName, mae := mae,
             rmse := rmse, r2 := r2, n := count }

/-! ## ColorAllocator (src/utils/colorUtils.ts) -/

/-- The fixed palette `CHART_COLORS`. -/
def CHART_COLORS : List String :=
  ["#2563eb", "#dc2626", "#16a34a", "#d97706", "#9333ea",
   "#0891b2", "#db2777", "#4f46e5", "#ca8a04", "#059669"]

/-- The hexadecimal digit character for a value below 16, lowercase as
produced by the JavaScript `toString(16)`. -/
def hexDigitChar (d : ℕ) : Char :=
  if d < 10 then Char.ofNat (48 + d) else Char.ofNat (87 + d)

/-- Model of `n.toString(16)` for a natural number: the base-16 digits,
most significant first, with no zero padding (and `"0"` for zero). -/
def natToHexString (n : ℕ) : String :=
  if n = 0 then "0" else String.mk ((Nat.digits 16 n).reverse.map hexDigitChar)

/-- Embedding of `getNextColor`: the first palette entry not already
used, else a fallback random color built from the draw
`Math.floor(Math.random()*16777215)`, modelled by the parameter `draw`
(a natural number below `16777215`). -/
def getNextColor (usedColors : List String) (draw : ℕ) : String :=
  let available := CHART_COLORS.filter (fun c => !(usedColors.contains c))
  match available with
  | c :: _ => c
  | [] => "#" ++ natToHexString draw

/-! ## ChartVisualizer (src/components/ChartVisualizer.tsx) -/

/-- Model of `datasets.find(d => d.id === ref.fileId)`. -/
def findDataset (datasets : List Dataset) (fileId : String) : Option Dataset :=
  datasets.find? (fun d => d.id == fileId)

/-- Model of `ds.data.map(row => Number(row[column]))`. -/
def resolveColumn (ds : Dataset) (column : String) : List JSNum :=
  ds.data.map (fun row => toNumber (rowGet row column))

/-- Embedding of the `getColumnData` helper: resolves a `ColumnRef`
against the dataset collection to a coerced numeric sequence and the raw
column name, or `none` when the dataset is absent. -/
def getColumnData (datasets : List Dataset) (ref : ColumnRef) :
    Option (List JSNum × String) :=
  match findDataset datasets ref.fileId with
  | none => none
  | some ds => some (resolveColumn ds ref.column, ref.column)

/-- One step of the domain scan in the `xDomain` memo: a non-NaN value
updates the running minimum and maximum and marks a valid number as
seen. -/
def scanStep (st : JSNum × JSNum × Bool) (v : JSNum) : JSNum × JSNum × Bool :=
  if !v.isNaN then (JSNum.min2 st.1 v, JSNum.max2 st.2.1 v, true) else st

/-- The domain scan: running minimum (starting at `Infinity`), running
maximum (starting at `-Infinity`), and the `hasValidNumber` flag. -/
def scanMinMax (vals : List JSNum) : JSNum × JSNum × Bool :=
  vals.foldl scanStep (JSNum.posInf, JSNum.negInf, false)

/-- The x-references scanned by `xDomain`: the chart default followed by
the per-series overrides, in configuration order. -/
def activeXRefs (config : ChartConfig) : List ColumnRef :=
  config.xColRef :: config.yColumns.filterMap (fun col => col.xColRef)

/-- The coerced values a single reference contributes to the domain scan
(nothing when its dataset is absent). -/
def refValues (datasets : List Dataset) (ref : ColumnRef) : List JSNum :=
  match findDataset datasets ref.fileId with
  | some ds => resolveColumn ds ref.column
  | none => []

/-- All values scanned by `xDomain`: every active x-reference, plus the
y-columns when the chart is diagonal. -/
def collectDomainValues (datasets : List Dataset) (config : ChartConfig) :
    List JSNum :=
  (activeXRefs config).flatMap (refValues datasets) ++
    (if config.type = ChartType.diagonal then
      config.yColumns.flatMap (fun col => refValues datasets col.colRef)
    else [])

/-- The padding and widening logic of `xDomain`, applied to the scanned
values: `none` models the `['auto','auto']` sentinel. -/
def xDomainOfValues (vals : List JSNum) : Option (JSNum × JSNum) :=
  let st := scanMinMax vals
  if st.2.2 = false then none
  else
    let padding := JSNum.mul (JSNum.sub st.2.1 st.1) (JSNum.fin (5 / 100))
    let adj :=
      if JSNum.strictEq st.1 st.2.1 then
        (JSNum.sub st.1 (JSNum.fin 1), JSNum.add st.2.1 (JSNum.fin 1))
      else (st.1, st.2.1)
    some (JSNum.sub adj.1 padding, JSNum.add adj.2 padding)

/-- Embedding of the full `xDomain` memo (early `['auto','auto']` on an
empty dataset collection, then scan and pad). -/
def xDomain (datasets : List Dataset) (config : ChartConfig) :
    Option (JSNum × JSNum) :=
  if datasets.length = 0 then none
  else xDomainOfValues (collectDomainValues datasets config)

/-- One chart point `{x, y}`. -/
structure SeriesPoint where
  x : JSNum
  y : JSNum
deriving DecidableEq

/-- The candidate pairs of a series before finiteness filtering: the
positional zip of the two coerced columns, whose length is the minimum
of the two row counts (mirroring the loop bound
`Math.min(dsX.data.length, dsY.data.length)`). -/
def rawSeriesPairs (dsX dsY : Dataset) (xColumn yColumn : String) :
    List SeriesPoint :=
  ((resolveColumn dsX xColumn).zip (resolveColumn dsY yColumn)).map
    (fun tp => ⟨tp.1, tp.2⟩)

/-- The pairs kept by the series construction: both coerced components
pass the `!isNaN` test. -/
def keptSeriesPairs (dsX dsY : Dataset) (xColumn yColumn : String) :
    List SeriesPoint :=
  (rawSeriesPairs dsX dsY xColumn yColumn).filter
    (fun p => !p.x.isNaN && !p.y.isNaN)

/-- The sort comparator `(a, b) => a.x - b.x` of the series
construction, as the induced weak order used by the stable
`Array.prototype.sort`: `a` may precede `b` when the comparator result
is negative or a tie (zero, or NaN which the sort treats as zero). -/
def sortCmpLE (a b : SeriesPoint) : Bool :=
  match JSNum.sub a.x b.x with
  | JSNum.fin q => decide (q ≤ 0)
  | JSNum.negInf => true
  | JSNum.posInf => false
  | JSNum.nan => true

/-- Propositional form of `sortCmpLE`, for the sorting machinery. -/
def sortRel (a b : SeriesPoint) : Prop := sortCmpLE a b = true

instance : DecidableRel sortRel := fun a b =>
  inferInstanceAs (Decidable (sortCmpLE a b = true))

/-- The per-series data of the render loop: filter both-non-NaN pairs,
then sort by `x` with the stable array sort, modelled by the stable
`insertionSort`. -/
def buildSeries (dsX dsY : Dataset) (xColumn yColumn : String) :
    List SeriesPoint :=
  List.insertionSort sortRel (keptSeriesPairs dsX dsY xColumn yColumn)

/-- The effective x-reference of a series: its override when present,
else the chart default (`col.xColRef || config.xColRef`). -/
def effectiveXRef (config : ChartConfig) (col : YColumnConfig) : ColumnRef :=
  col.xColRef.getD config.xColRef

/-- Series construction at the resolution boundary: `none` models the
render loop bailing out (`if (!dsX || !dsY) return null`). -/
def seriesDataFor (datasets : List Dataset) (xRef yRef : ColumnRef) :
    Option (List SeriesPoint) :=
  match findDataset datasets xRef.fileId, findDataset datasets yRef.fileId with
  | some dsX, some dsY => some (buildSeries dsX dsY xRef.column yRef.column)
  | _, _ => none

/-- The series data of one configured column within a chart. -/
def seriesDataOf (datasets : List Dataset) (config : ChartConfig)
    (col : YColumnConfig) : Option (List SeriesPoint) :=
  seriesDataFor datasets (effectiveXRef config col) col.colRef

/-! ## Specification-side notions

These definitions transcribe the wording of the specification (valid
pairs, sums over valid pairs); the theorems below compare them with the
embedded code. -/

/-- The valid pairs of two positionally zipped sequences: those the
engine keeps, i.e. both components pass `!isNaN`. -/
def validPairs (pairs : List (JSNum × JSNum)) : List (JSNum × JSNum) :=
  pairs.filter validPair

/-- Sum of a list of JavaScript numbers, in list order. -/
def jsSum (l : List JSNum) : JSNum := l.foldl JSNum.add (JSNum.fin 0)

/-- The count of valid pairs of two sequences (the `n` of the
specification). -/
def specN (xs ys : List JSNum) : ℕ := (validPairs (xs.zip ys)).length

/-- Specification sum of absolute differences over valid pairs. -/
def specSumAbs (xs ys : List JSNum) : JSNum :=
  jsSum ((validPairs (xs.zip ys)).map absDiff)

/-- Specification residual sum of squares `SS_res` over valid pairs. -/
def specSumSq (xs ys : List JSNum) : JSNum :=
  jsSum ((validPairs (xs.zip ys)).map sqDiff)

/-- Specification sum of the truth components over valid pairs. -/
def specSumTruth (xs ys : List JSNum) : JSNum :=
  jsSum ((validPairs (xs.zip ys)).map Prod.fst)

/-- Specification mean of the truth components over valid pairs. -/
def specMeanTruth (xs ys : List JSNum) : JSNum :=
  JSNum.div (specSumTruth xs ys) (JSNum.fin (specN xs ys : ℚ))

/-- Specification total sum of squares `SS_tot` over valid pairs. -/
def specSSTot (xs ys : List JSNum) : JSNum :=
  jsSum ((validPairs (xs.zip ys)).map (sqDev (specMeanTruth xs ys)))

/-! ## Characterisation of the metric loops -/

/-- Filtering distributes over cons. -/
theorem validPairs_cons (tp : JSNum × JSNum) (t : List (JSNum × JSNum)) :
    validPairs (tp :: t) =
      if validPair tp then tp :: validPairs t else validPairs t := by
  simp only [validPairs, List.filter_cons]

/-- A valid pair advances every accumulator of the first loop. -/
theorem metricsStep_pos {tp : JSNum × JSNum} (h : validPair tp = true)
    (acc : JSNum × JSNum × JSNum × ℕ) :
    metricsStep acc tp =
      (JSNum.add acc.1 (absDiff tp), JSNum.add acc.2.1 (sqDiff tp),
       JSNum.add acc.2.2.1 tp.1, acc.2.2.2 + 1) := by
  simp [metricsStep, h]

/-- An invalid pair leaves the first loop accumulator unchanged. -/
theorem metricsStep_neg {tp : JSNum × JSNum} (h : validPair tp = false)
    (acc : JSNum × JSNum × JSNum × ℕ) : metricsStep acc tp = acc := by
  simp [metricsStep, h]

/-- The first loop, from any accumulator, computes the three sums and the
count over exactly the valid pairs. -/
theorem metricsFold_go (pairs : List (JSNum × JSNum)) :
    ∀ (a b c : JSNum) (k : ℕ),
      pairs.foldl metricsStep (a, b, c, k) =
        (((validPairs pairs).map absDiff).foldl JSNum.add a,
         ((validPairs pairs).map sqDiff).foldl JSNum.add b,
         ((validPairs pairs).map Prod.fst).foldl JSNum.add c,
         k + (validPairs pairs).length) := by
  induction pairs with
  | nil => intro a b c k; simp [validPairs]
  | cons tp t ih =>
    intro a b c k
    cases h : validPair tp
    · rw [List.foldl_cons, metricsStep_neg h, validPairs_cons, h, if_neg (by simp), ih]
    · rw [List.foldl_cons, metricsStep_pos h, validPairs_cons, h, if_pos rfl, ih]
      simp [Nat.add_comm, Nat.add_assoc, Nat.add_left_comm]

/-- The first loop of `calculateMetrics` equals the specification sums
over valid pairs, with `count` the number of valid pairs. -/
theorem metricsFold_eq (pairs : List (JSNum × JSNum)) :
    metricsFold pairs =
      (jsSum ((validPairs pairs).map absDiff),
       jsSum ((validPairs pairs).map sqDiff),
       jsSum ((validPairs pairs).map Prod.fst),
       (validPairs pairs).length) := by
  rw [metricsFold, metricsFold_go]
  simp [jsSum]

/-- The second loop, from any accumulator, sums the squared deviations of
exactly the valid pairs. -/
theorem ssTotalFold_go (m : JSNum) (pairs : List (JSNum × JSNum)) :
    ∀ a : JSNum,
      pairs.foldl (ssTotalStep m) a = ((validPairs pairs).map (sqDev m)).foldl JSNum.add a := by
  induction pairs with
  | nil => intro a; simp [validPairs]
  | cons tp t ih =>
    intro a
    cases h : validPair tp
    · rw [List.foldl_cons, validPairs_cons, h, if_neg (by simp)]
      rw [show ssTotalStep m a tp = a by simp [ssTotalStep, h], ih]
    · rw [List.foldl_cons, validPairs_cons, h, if_pos rfl]
      rw [show ssTotalStep m a tp = JSNum.add a (sqDev m tp) by simp [ssTotalStep, h]]
      simp only [List.map_cons, List.foldl_cons, ih]

/-- The second loop of `calculateMetrics` equals the specification total
sum of squares over valid pairs. -/
theorem ssTotalFold_eq (pairs : List (JSNum × JSNum)) (m : JSNum) :
    ssTotalFold pairs m = jsSum ((validPairs pairs).map (sqDev m)) := by
  rw [ssTotalFold, ssTotalFold_go]
  rfl

/-- Full characterisation of a successful `calculateMetrics` call: with
nonempty inputs and at least one valid pair, it returns exactly the
specification record (MAE, RMSE, R² and count over the valid pairs). -/
theorem calculateMetrics_eq_some (xs ys : List JSNum) (sn xn : String)
    (hx : xs ≠ []) (hy : ys ≠ []) (hv : validPairs (xs.zip ys) ≠ []) :
    calculateMetrics xs ys sn xn = some
      { seriesName := sn, xName := xn,
        mae := JSNum.div (specSumAbs xs ys) (JSNum.fin (specN xs ys : ℚ)),
        rmse := jsSqrt (JSNum.div (specSumSq xs ys) (JSNum.fin (specN xs ys : ℚ))),
        r2 :=
          if JSNum.strictEq (specSSTot xs ys) (JSNum.fin 0) then JSNum.fin 0
          else JSNum.sub (JSNum.fin 1) (JSNum.div (specSumSq xs ys) (specSSTot xs ys)),
        n := specN xs ys } := by
  have h1 : ¬(xs.length = 0 ∨ ys.length = 0) := by
    simp [List.length_eq_zero, hx, hy]
  have h2 : (validPairs (xs.zip ys)).length ≠ 0 := by
    simpa [List.length_eq_zero] using hv
  rw [calculateMetrics, if_neg h1]
  simp only [metricsFold_eq, ssTotalFold_eq]
  rw [if_neg h2]
  rfl

/-- A successful `calculateMetrics` call implies nonempty inputs and a
nonempty valid-pair list. -/
theorem calculateMetrics_some_conds {xs ys : List JSNum} {sn xn : String}
    {m : CalculatedMetrics} (h : calculateMetrics xs ys sn xn = some m) :
    xs ≠ [] ∧ ys ≠ [] ∧ validPairs (xs.zip ys) ≠ [] := by
  rw [calculateMetrics] at h
  by_cases h1 : xs.length = 0 ∨ ys.length = 0
  · rw [if_pos h1] at h
    exact absurd h (by simp)
  · push_neg at h1
    refine ⟨by simpa [List.length_eq_zero] using h1.1,
            by simpa [List.length_eq_zero] using h1.2, ?_⟩
    rw [if_neg (by simpa using h1)] at h
    simp only [metricsFold_eq] at h
    by_cases h2 : (validPairs (xs.zip ys)).length = 0
    · rw [if_pos h2] at h
      exact absurd h (by simp)
    · simpa [List.length_eq_zero] using h2

/-- The record returned by a successful `calculateMetrics` call is the
specification record. -/
theorem calculateMetrics_some_eq {xs ys : List JSNum} {sn xn : String}
    {m : CalculatedMetrics} (h : calculateMetrics xs ys sn xn = some m) :
    m = { seriesName := sn, xName := xn,
          mae := JSNum.div (specSumAbs xs ys) (JSNum.fin (specN xs ys : ℚ)),
          rmse := jsSqrt (JSNum.div (specSumSq xs ys) (JSNum.fin (specN xs ys : ℚ))),
          r2 :=
            if JSNum.strictEq (specSSTot xs ys) (JSNum.fin 0) then JSNum.fin 0
            else JSNum.sub (JSNum.fin 1) (JSNum.div (specSumSq xs ys) (specSSTot xs ys)),
          n := specN xs ys } := by
  obtain ⟨hx, hy, hv⟩ := calculateMetrics_some_conds h
  have := calculateMetrics_eq_some xs ys sn xn hx hy hv
  rw [h] at this
  exact Option.some_injective _ this

/-- The JavaScript strict equality with `0` holds exactly on the finite
zero (in particular it is false on NaN). -/
theorem strictEq_fin_zero (a : JSNum) :
    JSNum.strictEq a (JSNum.fin 0) = true ↔ a = JSNum.fin 0 := by
  cases a <;> simp [JSNum.strictEq, JSNum.isNaN]

/-- C3: for every pair of non-empty truth/prediction sequences with at
least one valid pair, `calculateMetrics` returns `mae` equal to the mean
of the absolute differences and `rmse` equal to the square root of the
mean of the squared differences, both over the valid pairs only, with
`n` the count of valid pairs; in particular truth `[1,2,3,4]` against
prediction `[1,2,3,5]` yields `mae = 0.25`, `rmse = 0.5` and `n = 4`. -/
theorem c3_mae_rmse_n :
    (∀ (xs ys : List JSNum) (sn xn : String), xs ≠ [] → ys ≠ [] →
      validPairs (xs.zip ys) ≠ [] →
      (calculateMetrics xs ys sn xn).map CalculatedMetrics.mae =
        some (JSNum.div (specSumAbs xs ys) (JSNum.fin (specN xs ys : ℚ))) ∧
      (calculateMetrics xs ys sn xn).map CalculatedMetrics.rmse =
        some (jsSqrt (JSNum.div (specSumSq xs ys) (JSNum.fin (specN xs ys : ℚ)))) ∧
      (calculateMetrics xs ys sn xn).map CalculatedMetrics.n = some (specN xs ys)) ∧
    (calculateMetrics [JSNum.fin 1, JSNum.fin 2, JSNum.fin 3, JSNum.fin 4]
        [JSNum.fin 1, JSNum.fin 2, JSNum.fin 3, JSNum.fin 5] "s" "x").map
      CalculatedMetrics.mae = some (JSNum.fin (1/4)) ∧
    (calculateMetrics [JSNum.fin 1, JSNum.fin 2, JSNum.fin 3, JSNum.fin 4]
        [JSNum.fin 1, JSNum.fin 2, JSNum.fin 3, JSNum.fin 5] "s" "x").map
      CalculatedMetrics.rmse = some (JSRNum.fin (1/2)) ∧
    (calculateMetrics [JSNum.fin 1, JSNum.fin 2, JSNum.fin 3, JSNum.fin 4]
        [JSNum.fin 1, JSNum.fin 2, JSNum.fin 3, JSNum.fin 5] "s" "x").map
      CalculatedMetrics.n = some 4 := by
  refine ⟨?_, ?_, ?_, ?_⟩
  · intro xs ys sn xn hx hy hv
    rw [calculateMetrics_eq_some xs ys sn xn hx hy hv]
    exact ⟨rfl, rfl, rfl⟩
  · simp only [calculateMetrics_eq_some [JSNum.fin 1, JSNum.fin 2, JSNum.fin 3, JSNum.fin 4]
        [JSNum.fin 1, JSNum.fin 2, JSNum.fin 3, JSNum.fin 5] "s" "x" (by decide) (by decide)
        (by decide),
      Option.map_some]
    simp [specSumAbs, specN, validPairs, validPair, jsSum, absDiff, JSNum.isNaN,
      JSNum.add, JSNum.sub, JSNum.neg, JSNum.abs, JSNum.div]
    norm_num
  · simp only [calculateMetrics_eq_some [JSNum.fin 1, JSNum.fin 2, JSNum.fin 3, JSNum.fin 4]
        [JSNum.fin 1, JSNum.fin 2, JSNum.fin 3, JSNum.fin 5] "s" "x" (by decide) (by decide)
        (by decide),
      Option.map_some]
    have h2 : JSNum.div
        (specSumSq [JSNum.fin 1, JSNum.fin 2, JSNum.fin 3, JSNum.fin 4]
          [JSNum.fin 1, JSNum.fin 2, JSNum.fin 3, JSNum.fin 5])
        (JSNum.fin ((specN [JSNum.fin 1, JSNum.fin 2, JSNum.fin 3, JSNum.fin 4]
          [JSNum.fin 1, JSNum.fin 2, JSNum.fin 3, JSNum.fin 5]) : ℚ)) = JSNum.fin (1/4) := by
      simp [specSumSq, specN, validPairs, validPair, jsSum, sqDiff, JSNum.isNaN,
        JSNum.add, JSNum.sub, JSNum.neg, JSNum.mul, JSNum.div]
      norm_num
    rw [h2]
    have h3 : jsSqrt (JSNum.fin (1/4)) =
        JSRNum.fin (Real.sqrt ((1/4 : ℚ) : ℝ)) := by
      simp only [jsSqrt]
      rw [if_neg (by norm_num)]
    rw [h3]
    rw [show ((1/4 : ℚ) : ℝ) = ((1/2 : ℝ)) ^ 2 by push_cast; norm_num]
    simp [Real.sqrt_sq (show (0:ℝ) ≤ 1/2 by norm_num)]
  · simp only [calculateMetrics_eq_some [JSNum.fin 1, JSNum.fin 2, JSNum.fin 3, JSNum.fin 4]
        [JSNum.fin 1, JSNum.fin 2, JSNum.fin 3, JSNum.fin 5] "s" "x" (by decide) (by decide)
        (by decide),
      Option.map_some]
    congr 1

/-- Witness for C3 at truth `[1,2,3,4]`, prediction `[1,2,3,5]`. -/
theorem c3_witness :
    (calculateMetrics [JSNum.fin 1, JSNum.fin 2, JSNum.fin 3, JSNum.fin 4]
        [JSNum.fin 1, JSNum.fin 2, JSNum.fin 3, JSNum.fin 5] "s" "x").map
      CalculatedMetrics.n =
      some (specN [JSNum.fin 1, JSNum.fin 2, JSNum.fin 3, JSNum.fin 4]
        [JSNum.fin 1, JSNum.fin 2, JSNum.fin 3, JSNum.fin 5]) :=
  (c3_mae_rmse_n.1 [JSNum.fin 1, JSNum.fin 2, JSNum.fin 3, JSNum.fin 4]
    [JSNum.fin 1, JSNum.fin 2, JSNum.fin 3, JSNum.fin 5] "s" "x"
    (by decide) (by decide) (by decide)).2.2

/-- C4: whenever `calculateMetrics` returns a result, its `r2` is exactly
the finite `0` when the total sum of squares over the valid pairs is
zero, and `1 - SS_res / SS_tot` otherwise; in particular truth
`[5,5,5]` against prediction `[1,2,3]` yields `r2 = 0` exactly. -/
theorem c4_r2_policy :
    (∀ (xs ys : List JSNum) (sn xn : String) (m : CalculatedMetrics),
      calculateMetrics xs ys sn xn = some m →
        (specSSTot xs ys = JSNum.fin 0 → m.r2 = JSNum.fin 0) ∧
        (specSSTot xs ys ≠ JSNum.fin 0 →
          m.r2 = JSNum.sub (JSNum.fin 1)
            (JSNum.div (specSumSq xs ys) (specSSTot xs ys)))) ∧
    (calculateMetrics [JSNum.fin 5, JSNum.fin 5, JSNum.fin 5]
        [JSNum.fin 1, JSNum.fin 2, JSNum.fin 3] "s" "x").map
      CalculatedMetrics.r2 = some (JSNum.fin 0) := by
  constructor
  · intro xs ys sn xn m hm
    have hmeq := calculateMetrics_some_eq hm
    constructor
    · intro h0
      rw [hmeq]
      show (if JSNum.strictEq (specSSTot xs ys) (JSNum.fin 0) = true then JSNum.fin 0
        else JSNum.sub (JSNum.fin 1)
          (JSNum.div (specSumSq xs ys) (specSSTot xs ys))) = JSNum.fin 0
      rw [if_pos ((strictEq_fin_zero _).mpr h0)]
    · intro h0
      rw [hmeq]
      show (if JSNum.strictEq (specSSTot xs ys) (JSNum.fin 0) = true then JSNum.fin 0
        else JSNum.sub (JSNum.fin 1)
          (JSNum.div (specSumSq xs ys) (specSSTot xs ys))) = _
      rw [if_neg (fun hc => h0 ((strictEq_fin_zero _).mp hc))]
  · rw [calculateMetrics_eq_some [JSNum.fin 5, JSNum.fin 5, JSNum.fin 5]
      [JSNum.fin 1, JSNum.fin 2, JSNum.fin 3] "s" "x" (by decide) (by decide) (by decide)]
    have hss : specSSTot [JSNum.fin 5, JSNum.fin 5, JSNum.fin 5]
        [JSNum.fin 1, JSNum.fin 2, JSNum.fin 3] = JSNum.fin 0 := by
      simp [specSSTot, specMeanTruth, specSumTruth, specN, validPairs, validPair, jsSum,
        sqDev, JSNum.isNaN, JSNum.add, JSNum.sub, JSNum.neg, JSNum.mul, JSNum.div]
      norm_num
    simp [hss, JSNum.strictEq, JSNum.isNaN]

/-- Witness for C4 at truth `[5,5,5]`, prediction `[1,2,3]`: the total
sum of squares is zero and the returned `r2` is exactly `0`. -/
theorem c4_witness :
    specSSTot [JSNum.fin 5, JSNum.fin 5, JSNum.fin 5]
        [JSNum.fin 1, JSNum.fin 2, JSNum.fin 3] = JSNum.fin 0 ∧
    (calculateMetrics [JSNum.fin 5, JSNum.fin 5, JSNum.fin 5]
        [JSNum.fin 1, JSNum.fin 2, JSNum.fin 3] "s" "x").map
      CalculatedMetrics.r2 = some (JSNum.fin 0) := by
  constructor
  · simp [specSSTot, specMeanTruth, specSumTruth, specN, validPairs, validPair, jsSum,
      sqDev, JSNum.isNaN, JSNum.add, JSNum.sub, JSNum.neg, JSNum.mul, JSNum.div]
    norm_num
  · exact c4_r2_policy.2

/-- C7: `calculateMetrics` returns nothing on an empty input or when no
valid pair remains after filtering, and a returned result reports a
count `n` with `1 ≤ n ≤ min (len truth) (len pred)`. -/
theorem c7_compute_bounds (xs ys : List JSNum) (sn xn : String) :
    ((xs = [] ∨ ys = []) → calculateMetrics xs ys sn xn = none) ∧
    (validPairs (xs.zip ys) = [] → calculateMetrics xs ys sn xn = none) ∧
    ∀ m, calculateMetrics xs ys sn xn = some m →
      1 ≤ m.n ∧ m.n ≤ min xs.length ys.length := by
  refine ⟨?_, ?_, ?_⟩
  · intro h
    rw [calculateMetrics, if_pos]
    rcases h with h | h <;> simp [h]
  · intro h
    by_cases h1 : xs.length = 0 ∨ ys.length = 0
    · rw [calculateMetrics, if_pos h1]
    · rw [calculateMetrics, if_neg h1]
      simp only [metricsFold_eq]
      rw [if_pos (by simp [h])]
  · intro m hm
    obtain ⟨hx, hy, hv⟩ := calculateMetrics_some_conds hm
    have hmeq := calculateMetrics_some_eq hm
    constructor
    · rw [hmeq]
      show 1 ≤ specN xs ys
      exact Nat.one_le_iff_ne_zero.mpr (by simpa [specN, List.length_eq_zero] using hv)
    · rw [hmeq]
      show specN xs ys ≤ min xs.length ys.length
      calc specN xs ys = (validPairs (xs.zip ys)).length := rfl
        _ ≤ (xs.zip ys).length := List.length_filter_le _ _
        _ = min xs.length ys.length := List.length_zip xs ys

/-- Witness for C7: an empty truth input and an all-NaN truth input both
return nothing, and a successful call at truth `[1]`, prediction `[2]`
reports `n = 1` within the bounds. -/
theorem c7_witness :
    calculateMetrics ([] : List JSNum) [JSNum.fin 1] "s" "x" = none ∧
    calculateMetrics [JSNum.nan] [JSNum.fin 1] "s" "x" = none ∧
    (1 ≤ specN [JSNum.fin 1] [JSNum.fin 2] ∧
      specN [JSNum.fin 1] [JSNum.fin 2] ≤ min 1 1) := by
  refine ⟨(c7_compute_bounds [] [JSNum.fin 1] "s" "x").1 (Or.inl rfl),
    (c7_compute_bounds [JSNum.nan] [JSNum.fin 1] "s" "x").2.1 (by decide), ?_⟩
  exact (c7_compute_bounds [JSNum.fin 1] [JSNum.fin 2] "s" "x").2.2 _
    (calculateMetrics_eq_some [JSNum.fin 1] [JSNum.fin 2] "s" "x"
      (by decide) (by decide) (by decide))

/-- C2 counterexample: a pair with an infinite component is NOT dropped.
`calculateMetrics` counts the pair `(Infinity, 1)` as valid (`n = 1`),
and the series construction keeps the point coming from an `"Infinity"`
string cell. -/
theorem c2_counterexample :
    (calculateMetrics [JSNum.posInf] [JSNum.fin 1] "s" "x").map
      CalculatedMetrics.n = some 1 ∧
    keptSeriesPairs ⟨"A", "a", [[("x", CellValue.str "Infinity")]], ["x"], "c"⟩
      ⟨"B", "b", [[("y", CellValue.num 1)]], ["y"], "c"⟩ "x" "y"
      = [⟨JSNum.posInf, JSNum.fin 1⟩] := by
  constructor
  · decide
  · decide

/-- C2 amended: a pair is kept by the series construction, and counted by
the metrics engine, exactly when both of its components are non-NaN;
infinite components are NOT excluded, so a pair with an infinite
component and a non-NaN partner is kept. -/
theorem c2_amended :
    (∀ (dsX dsY : Dataset) (xc yc : String) (p : SeriesPoint),
      p ∈ keptSeriesPairs dsX dsY xc yc ↔
        (p ∈ rawSeriesPairs dsX dsY xc yc ∧ p.x.isNaN = false ∧ p.y.isNaN = false)) ∧
    (∀ (xs ys : List JSNum) (sn xn : String) (m : CalculatedMetrics),
      calculateMetrics xs ys sn xn = some m → m.n = specN xs ys) ∧
    (∀ (dsX dsY : Dataset) (xc yc : String) (p : SeriesPoint),
      p ∈ rawSeriesPairs dsX dsY xc yc → p.x.isNaN = false → p.y.isNaN = false →
      p ∈ keptSeriesPairs dsX dsY xc yc) := by
  have hmem : ∀ (dsX dsY : Dataset) (xc yc : String) (p : SeriesPoint),
      p ∈ keptSeriesPairs dsX dsY xc yc ↔
        (p ∈ rawSeriesPairs dsX dsY xc yc ∧ p.x.isNaN = false ∧ p.y.isNaN = false) := by
    intro dsX dsY xc yc p
    simp [keptSeriesPairs, List.mem_filter]
  refine ⟨hmem, ?_, ?_⟩
  · intro xs ys sn xn m hm
    rw [calculateMetrics_some_eq hm]
  · intro dsX dsY xc yc p hp hx hy
    exact (hmem dsX dsY xc yc p).mpr ⟨hp, hx, hy⟩

/-- Witness for the amended C2: the infinite point of the counterexample
datasets is kept. -/
theorem c2_witness :
    (⟨JSNum.posInf, JSNum.fin 1⟩ : SeriesPoint) ∈
      keptSeriesPairs ⟨"A", "a", [[("x", CellValue.str "Infinity")]], ["x"], "c"⟩
        ⟨"B", "b", [[("y", CellValue.num 1)]], ["y"], "c"⟩ "x" "y" :=
  c2_amended.2.2 ⟨"A", "a", [[("x", CellValue.str "Infinity")]], ["x"], "c"⟩
    ⟨"B", "b", [[("y", CellValue.num 1)]], ["y"], "c"⟩ "x" "y"
    ⟨JSNum.posInf, JSNum.fin 1⟩ (by decide) (by decide) (by decide)

/-- A value is finite exactly when it is a `fin`. -/
theorem isFinite_iff (v : JSNum) : v.isFinite = true ↔ ∃ q : ℚ, v = JSNum.fin q := by
  cases v <;> simp [JSNum.isFinite]

/-- A fold of JavaScript additions over finite values, started at a
finite value, stays finite. -/
theorem foldl_add_fin (l : List JSNum) :
    ∀ a : ℚ, (∀ v ∈ l, ∃ q : ℚ, v = JSNum.fin q) →
      ∃ s : ℚ, l.foldl JSNum.add (JSNum.fin a) = JSNum.fin s := by
  induction l with
  | nil => intro a _; exact ⟨a, rfl⟩
  | cons v t ih =>
    intro a h
    obtain ⟨q, hq⟩ := h v (List.mem_cons_self v t)
    subst hq
    simp only [List.foldl_cons]
    exact ih (a + q) (fun w hw => h w (List.mem_cons_of_mem _ hw))

/-- A fold of JavaScript additions over nonnegative finite values,
started at a finite value, stays finite and does not decrease. -/
theorem foldl_add_fin_nonneg (l : List JSNum) :
    ∀ a : ℚ, (∀ v ∈ l, ∃ q : ℚ, v = JSNum.fin q ∧ 0 ≤ q) →
      ∃ s : ℚ, l.foldl JSNum.add (JSNum.fin a) = JSNum.fin s ∧ a ≤ s := by
  induction l with
  | nil => intro a _; exact ⟨a, rfl, le_refl a⟩
  | cons v t ih =>
    intro a h
    obtain ⟨q, hq, hq0⟩ := h v (List.mem_cons_self v t)
    subst hq
    simp only [List.foldl_cons]
    obtain ⟨s, hs, hle⟩ := ih (a + q) (fun w hw => h w (List.mem_cons_of_mem _ hw))
    exact ⟨s, hs, le_trans (le_add_of_nonneg_right hq0) hle⟩

/-- Both components of a valid pair of two all-finite sequences are
finite rationals. -/
theorem validPairs_fin {xs ys : List JSNum}
    (hx : ∀ v ∈ xs, v.isFinite = true) (hy : ∀ v ∈ ys, v.isFinite = true) :
    ∀ tp ∈ validPairs (xs.zip ys),
      (∃ q : ℚ, tp.1 = JSNum.fin q) ∧ ∃ q : ℚ, tp.2 = JSNum.fin q := by
  rintro ⟨t, p⟩ htp
  have hmem : (t, p) ∈ xs.zip ys := List.mem_of_mem_filter htp
  obtain ⟨h1, h2⟩ := List.of_mem_zip hmem
  exact ⟨(isFinite_iff t).mp (hx t h1), (isFinite_iff p).mp (hy p h2)⟩

/-- C10 counterexample: on truth `[Infinity]` against prediction
`[Infinity]` the engine returns a result whose `r2` is NaN, which is not
at most `1` under the JavaScript comparison. -/
theorem c10_counterexample :
    (calculateMetrics [JSNum.posInf] [JSNum.posInf] "s" "x").map
      CalculatedMetrics.r2 = some JSNum.nan ∧
    JSNum.le JSNum.nan (JSNum.fin 1) = false := by
  constructor
  · decide
  · decide

/-- C10 amended: when every input value is finite and `calculateMetrics`
returns a result, the returned `r2` is at most `1`: it is `0` when the
total sum of squares is zero and `1 - SS_res / SS_tot` with
`SS_res ≥ 0 < SS_tot` otherwise. -/
theorem c10_amended (xs ys : List JSNum) (sn xn : String)
    (hx : ∀ v ∈ xs, v.isFinite = true) (hy : ∀ v ∈ ys, v.isFinite = true)
    (m : CalculatedMetrics) (hm : calculateMetrics xs ys sn xn = some m) :
    JSNum.le m.r2 (JSNum.fin 1) = true := by
  obtain ⟨hx0, hy0, hv⟩ := calculateMetrics_some_conds hm
  have hfin := validPairs_fin hx hy
  have hssres : ∃ r : ℚ, specSumSq xs ys = JSNum.fin r ∧ 0 ≤ r := by
    apply foldl_add_fin_nonneg
    rintro v hvmem
    obtain ⟨⟨t, p⟩, htp, rfl⟩ := List.mem_map.mp hvmem
    obtain ⟨⟨qt, hqt⟩, ⟨qp, hqp⟩⟩ := hfin _ htp
    simp only at hqt hqp
    subst hqt
    subst hqp
    refine ⟨(qt + -qp) * (qt + -qp), ?_, mul_self_nonneg _⟩
    simp [sqDiff, JSNum.sub, JSNum.add, JSNum.neg, JSNum.mul]
  have hmean : ∃ r : ℚ, specMeanTruth xs ys = JSNum.fin r := by
    obtain ⟨r, hr⟩ : ∃ r : ℚ, specSumTruth xs ys = JSNum.fin r := by
      apply foldl_add_fin
      rintro v hvmem
      obtain ⟨⟨t, p⟩, htp, rfl⟩ := List.mem_map.mp hvmem
      obtain ⟨⟨qt, hqt⟩, _⟩ := hfin _ htp
      exact ⟨qt, hqt⟩
    have hn : ((specN xs ys : ℚ)) ≠ 0 := by
      have : (validPairs (xs.zip ys)).length ≠ 0 := by
        simpa [List.length_eq_zero] using hv
      exact_mod_cast this
    refine ⟨r / (specN xs ys : ℚ), ?_⟩
    rw [specMeanTruth, hr]
    simp [JSNum.div, hn]
  have hsstot : ∃ s : ℚ, specSSTot xs ys = JSNum.fin s ∧ 0 ≤ s := by
    obtain ⟨rm, hrm⟩ := hmean
    apply foldl_add_fin_nonneg
    rintro v hvmem
    obtain ⟨⟨t, p⟩, htp, rfl⟩ := List.mem_map.mp hvmem
    obtain ⟨⟨qt, hqt⟩, _⟩ := hfin _ htp
    simp only at hqt
    subst hqt
    refine ⟨(qt + -(rm)) * (qt + -(rm)), ?_, mul_self_nonneg _⟩
    simp [sqDev, hrm, JSNum.sub, JSNum.add, JSNum.neg, JSNum.mul]
  obtain ⟨r, hr, hr0⟩ := hssres
  obtain ⟨s, hs, hs0⟩ := hsstot
  rw [calculateMetrics_some_eq hm]
  show JSNum.le
    (if JSNum.strictEq (specSSTot xs ys) (JSNum.fin 0) = true then JSNum.fin 0
      else JSNum.sub (JSNum.fin 1) (JSNum.div (specSumSq xs ys) (specSSTot xs ys)))
    (JSNum.fin 1) = true
  by_cases h0 : JSNum.strictEq (specSSTot xs ys) (JSNum.fin 0) = true
  · rw [if_pos h0]
    decide
  · rw [if_neg h0]
    have hsne : s ≠ 0 := by
      intro hcontr
      apply h0
      rw [hs, hcontr]
      exact (strictEq_fin_zero _).mpr rfl
    have hspos : 0 < s := lt_of_le_of_ne hs0 (Ne.symm hsne)
    rw [hr, hs]
    rw [show JSNum.div (JSNum.fin r) (JSNum.fin s) = JSNum.fin (r / s) by
      simp [JSNum.div, hsne]]
    rw [show JSNum.sub (JSNum.fin 1) (JSNum.fin (r / s)) = JSNum.fin (1 - r / s) by
      simp [JSNum.sub, JSNum.add, JSNum.neg]
      ring]
    have hdiv : 0 ≤ r / s := div_nonneg hr0 (le_of_lt hspos)
    simp only [JSNum.le, decide_eq_true_eq]
    linarith

/-- Witness for the amended C10 at the all-finite input truth `[1]`,
prediction `[2]`. -/
theorem c10_witness :
    (calculateMetrics [JSNum.fin 1] [JSNum.fin 2] "s" "x").map
      (fun m => JSNum.le m.r2 (JSNum.fin 1)) = some true := by
  rw [calculateMetrics_eq_some [JSNum.fin 1] [JSNum.fin 2] "s" "x"
    (by decide) (by decide) (by decide)]
  exact congrArg some
    (c10_amended [JSNum.fin 1] [JSNum.fin 2] "s" "x" (by decide) (by decide) _
      (calculateMetrics_eq_some [JSNum.fin 1] [JSNum.fin 2] "s" "x"
        (by decide) (by decide) (by decide)))

/-- C1 counterexample: a `null` cell coerces to the finite `0`, not to
the NaN marker the claim demands. -/
theorem c1_counterexample :
    getColumnData [⟨"A", "a", [[("a", CellValue.null)]], ["a"], "c"⟩] ⟨"A", "a"⟩
      = some ([JSNum.fin 0], "a") ∧ JSNum.fin 0 ≠ JSNum.nan := by
  constructor
  · decide
  · decide

/-- C1 amended: for a reference resolving against a present dataset, the
resolver returns one coerced value per row (length preserved, nothing
filtered), where numbers pass through, strings are parsed (numeric
strings to their value, unparseable strings to NaN), missing keys give
NaN, and `null` cells give `0` (not NaN). -/
theorem c1_column_resolution (datasets : List Dataset) (ref : ColumnRef)
    (ds : Dataset) (h : findDataset datasets ref.fileId = some ds) :
    getColumnData datasets ref = some (resolveColumn ds ref.column, ref.column) ∧
    (resolveColumn ds ref.column).length = ds.data.length ∧
    (∀ (i : ℕ) (row : Row), ds.data[i]? = some row →
      (resolveColumn ds ref.column)[i]? = some (toNumber (rowGet row ref.column))) ∧
    (∀ (row : Row) (q : ℚ), rowGet row ref.column = some (CellValue.num q) →
      toNumber (rowGet row ref.column) = JSNum.fin q) ∧
    (∀ row : Row, rowGet row ref.column = none →
      toNumber (rowGet row ref.column) = JSNum.nan) ∧
    (∀ row : Row, rowGet row ref.column = some CellValue.null →
      toNumber (rowGet row ref.column) = JSNum.fin 0) ∧
    jsStringToNumber "3.5" = JSNum.fin (7/2) ∧
    jsStringToNumber "abc" = JSNum.nan := by
  refine ⟨?_, ?_, ?_, ?_, ?_, ?_, ?_, ?_⟩
  · rw [getColumnData, h]
  · simp [resolveColumn]
  · intro i row hrow
    simp [resolveColumn, List.getElem?_map, hrow]
  · intro row q hq
    rw [hq]
    rfl
  · intro row hq
    rw [hq]
    rfl
  · intro row hq
    rw [hq]
    rfl
  · simp [jsStringToNumber, trimChars, parseSignedDec, parseUnsignedDec, digitsToNat]
    norm_num
  · decide

/-- Witness for the amended C1 on a one-dataset collection holding one
row with a numeric cell. -/
theorem c1_witness :
    getColumnData [⟨"A", "a", [[("a", CellValue.num 7)]], ["a"], "c"⟩] ⟨"A", "a"⟩
      = some (resolveColumn ⟨"A", "a", [[("a", CellValue.num 7)]], ["a"], "c"⟩ "a", "a") ∧
    jsStringToNumber "abc" = JSNum.nan :=
  ⟨(c1_column_resolution [⟨"A", "a", [[("a", CellValue.num 7)]], ["a"], "c"⟩] ⟨"A", "a"⟩
      ⟨"A", "a", [[("a", CellValue.num 7)]], ["a"], "c"⟩ (by decide)).1,
   (c1_column_resolution [⟨"A", "a", [[("a", CellValue.num 7)]], ["a"], "c"⟩] ⟨"A", "a"⟩
      ⟨"A", "a", [[("a", CellValue.num 7)]], ["a"], "c"⟩ (by decide)).2.2.2.2.2.2.2⟩

/-- C6: when the effective x-reference and the y-reference both resolve,
the series pairs index `i` of the x sequence with index `i` of the y
sequence, and the candidate-pair count before finiteness filtering is
the minimum of the two row counts (the longer tail is discarded). -/
theorem c6_positional_join (datasets : List Dataset) (xRef yRef : ColumnRef)
    (dsX dsY : Dataset) (h1 : findDataset datasets xRef.fileId = some dsX)
    (h2 : findDataset datasets yRef.fileId = some dsY) :
    seriesDataFor datasets xRef yRef =
      some (buildSeries dsX dsY xRef.column yRef.column) ∧
    (rawSeriesPairs dsX dsY xRef.column yRef.column).length
      = min dsX.data.length dsY.data.length ∧
    ∀ (i : ℕ) (a b : JSNum), (resolveColumn dsX xRef.column)[i]? = some a →
      (resolveColumn dsY yRef.column)[i]? = some b →
      (rawSeriesPairs dsX dsY xRef.column yRef.column)[i]? = some ⟨a, b⟩ := by
  refine ⟨?_, ?_, ?_⟩
  · rw [seriesDataFor, h1, h2]
  · simp [rawSeriesPairs, resolveColumn, List.length_zip]
  · intro i a b ha hb
    simp only [rawSeriesPairs, List.getElem?_map]
    rw [show ((resolveColumn dsX xRef.column).zip (resolveColumn dsY yRef.column))[i]?
      = some (a, b) from List.getElem?_zip_eq_some.mpr ⟨ha, hb⟩]
    rfl

/-- Witness for C6: a 5-row dataset joined against a 3-row dataset gives
exactly `min 5 3 = 3` candidate pairs, and index 0 pairs positionally. -/
theorem c6_witness :
    (rawSeriesPairs
      ⟨"A", "a", [[("a", CellValue.num 1)], [("a", CellValue.num 2)],
        [("a", CellValue.num 3)], [("a", CellValue.num 4)], [("a", CellValue.num 5)]],
        ["a"], "c"⟩
      ⟨"B", "b", [[("b", CellValue.num 10)], [("b", CellValue.num 20)],
        [("b", CellValue.num 30)]], ["b"], "c"⟩ "a" "b").length = min 5 3 ∧
    (rawSeriesPairs
      ⟨"A", "a", [[("a", CellValue.num 1)], [("a", CellValue.num 2)],
        [("a", CellValue.num 3)], [("a", CellValue.num 4)], [("a", CellValue.num 5)]],
        ["a"], "c"⟩
      ⟨"B", "b", [[("b", CellValue.num 10)], [("b", CellValue.num 20)],
        [("b", CellValue.num 30)]], ["b"], "c"⟩ "a" "b")[0]?
      = some ⟨JSNum.fin 1, JSNum.fin 10⟩ := by
  constructor
  · exact (c6_positional_join
      [⟨"A", "a", [[("a", CellValue.num 1)], [("a", CellValue.num 2)],
        [("a", CellValue.num 3)], [("a", CellValue.num 4)], [("a", CellValue.num 5)]],
        ["a"], "c"⟩,
       ⟨"B", "b", [[("b", CellValue.num 10)], [("b", CellValue.num 20)],
        [("b", CellValue.num 30)]], ["b"], "c"⟩] ⟨"A", "a"⟩ ⟨"B", "b"⟩ _ _
      (by decide) (by decide)).2.1
  · exact (c6_positional_join
      [⟨"A", "a", [[("a", CellValue.num 1)], [("a", CellValue.num 2)],
        [("a", CellValue.num 3)], [("a", CellValue.num 4)], [("a", CellValue.num 5)]],
        ["a"], "c"⟩,
       ⟨"B", "b", [[("b", CellValue.num 10)], [("b", CellValue.num 20)],
        [("b", CellValue.num 30)]], ["b"], "c"⟩] ⟨"A", "a"⟩ ⟨"B", "b"⟩ _ _
      (by decide) (by decide)).2.2 0 (JSNum.fin 1) (JSNum.fin 10) (by decide) (by decide)

/-- C9 counterexample: with the whole palette used and a zero random
draw, the fallback color is `"#0"`, which is not `'#'` followed by
exactly six hexadecimal digits (its length is 2, not 7). -/
theorem c9_counterexample :
    getNextColor CHART_COLORS 0 = "#0" ∧ ("#0" : String).length ≠ 7 := by
  constructor
  · decide
  · decide

/-- C9 amended: with the palette exhausted, every outcome of the random
draw yields `'#'` followed by between one and six lowercase hexadecimal
digits (the JavaScript `toString(16)` does not zero-pad). -/
theorem c9_fallback_format (usedColors : List String) (draw : ℕ)
    (hUsed : ∀ c ∈ CHART_COLORS, c ∈ usedColors) (hdraw : draw < 16777215) :
    getNextColor usedColors draw = "#" ++ natToHexString draw ∧
    1 ≤ (natToHexString draw).length ∧ (natToHexString draw).length ≤ 6 ∧
    ∀ c ∈ (natToHexString draw).data,
      (c.isDigit || (97 ≤ c.toNat && c.toNat ≤ 102)) = true := by
  have hav : CHART_COLORS.filter (fun c => !(usedColors.contains c)) = [] := by
    rw [List.filter_eq_nil_iff]
    intro c hc
    simp only [Bool.not_eq_true', Bool.not_eq_false]
    exact List.contains_iff_exists_mem_beq.mpr ⟨c, hUsed c hc, by simp⟩
  refine ⟨?_, ?_, ?_, ?_⟩
  · rw [getNextColor]
    simp only [hav]
  · by_cases h0 : draw = 0
    · subst h0; decide
    · have hne : Nat.digits 16 draw ≠ [] := Nat.digits_ne_nil_iff_ne_zero.mpr h0
      simp [natToHexString, h0, String.length]
      exact List.length_pos.mpr hne
  · by_cases h0 : draw = 0
    · subst h0; decide
    · have hlen := Nat.digits_len 16 draw (by norm_num) h0
      have hlog : Nat.log 16 draw < 6 :=
        (Nat.lt_pow_iff_log_lt (by norm_num) h0).mp
          (lt_trans hdraw (by norm_num))
      simp [natToHexString, h0, String.length, hlen]
      omega
  · by_cases h0 : draw = 0
    · subst h0; decide
    · intro c hc
      simp only [natToHexString, h0, if_neg h0] at hc
      obtain ⟨d, hd, rfl⟩ := List.mem_map.mp (by simpa [String.data] using hc)
      have hd16 : d < 16 := Nat.digits_lt_base (by norm_num) hd
      interval_cases d <;> decide

/-- Witness for the amended C9: palette fully used, draw `0`. -/
theorem c9_witness :
    getNextColor CHART_COLORS 0 = "#" ++ natToHexString 0 ∧
    1 ≤ (natToHexString 0).length ∧ (natToHexString 0).length ≤ 6 :=
  ⟨(c9_fallback_format CHART_COLORS 0 (fun c h => h) (by norm_num)).1,
   (c9_fallback_format CHART_COLORS 0 (fun c h => h) (by norm_num)).2.1,
   (c9_fallback_format CHART_COLORS 0 (fun c h => h) (by norm_num)).2.2.1⟩

/-- Two points with equal x compare as a tie under the series sort
comparator (the comparator result is zero or NaN, both treated as a
tie). -/
theorem sortCmpLE_of_eq_x (p q : SeriesPoint) (h : p.x = q.x) :
    sortCmpLE p q = true := by
  rw [sortCmpLE, h]
  cases hx : q.x <;>
    simp [JSNum.sub, JSNum.add, JSNum.neg]

/-- The series sort comparator order is total. -/
theorem sortCmpLE_total (p q : SeriesPoint) :
    sortCmpLE p q = true ∨ sortCmpLE q p = true := by
  rcases hp : p.x with _ | _ | _ | a <;> rcases hq : q.x with _ | _ | _ | b <;>
    simp [sortCmpLE, hp, hq, JSNum.sub, JSNum.add, JSNum.neg]
  rcases le_total a b with h | h
  · left
    linarith
  · right
    linarith

/-- The series sort comparator is transitive through a non-NaN middle
key. -/
theorem sortCmpLE_trans (p q r : SeriesPoint) (hq : q.x.isNaN = false)
    (h1 : sortCmpLE p q = true) (h2 : sortCmpLE q r = true) :
    sortCmpLE p r = true := by
  rcases hp : p.x with _ | _ | _ | a <;> rcases hqx : q.x with _ | _ | _ | b <;>
    rcases hr : r.x with _ | _ | _ | c <;>
    simp_all [sortCmpLE, JSNum.sub, JSNum.add, JSNum.neg, JSNum.isNaN] <;>
    linarith

/-- Every kept series point has a non-NaN x component. -/
theorem kept_x_nonNaN {dsX dsY : Dataset} {xc yc : String} {p : SeriesPoint}
    (hp : p ∈ keptSeriesPairs dsX dsY xc yc) : p.x.isNaN = false := by
  simp [keptSeriesPairs, List.mem_filter] at hp
  exact hp.2.1

/-- Inserting into a sorted list of non-NaN-keyed points keeps it
sorted. -/
theorem orderedInsert_sorted_nonNaN (a : SeriesPoint) :
    ∀ l : List SeriesPoint, (∀ p ∈ l, p.x.isNaN = false) →
      List.Sorted sortRel l → List.Sorted sortRel (List.orderedInsert sortRel a l) := by
  intro l
  induction l with
  | nil => intro _ _; exact List.sorted_singleton a
  | cons b t ih =>
    intro hnn hs
    rw [List.orderedInsert]
    by_cases hab : sortRel a b
    · rw [if_pos hab]
      rw [List.sorted_cons]
      refine ⟨?_, hs⟩
      intro c hc
      rcases List.mem_cons.mp hc with rfl | hct
      · exact hab
      · exact sortCmpLE_trans a b c (hnn b (List.mem_cons_self b t)) hab
          (List.rel_of_sorted_cons hs c hct)
    · rw [if_neg hab]
      rw [List.sorted_cons]
      constructor
      · intro c hc
        rcases (List.mem_orderedInsert sortRel).mp hc with rfl | hct
        · rcases sortCmpLE_total b c with h | h
          · exact h
          · exact absurd h hab
        · exact List.rel_of_sorted_cons hs c hct
      · exact ih (fun p hp => hnn p (List.mem_cons_of_mem b hp)) hs.of_cons

/-- The insertion sort of a list of non-NaN-keyed points is sorted under
the series comparator. -/
theorem sorted_insertionSort_nonNaN :
    ∀ l : List SeriesPoint, (∀ p ∈ l, p.x.isNaN = false) →
      List.Sorted sortRel (List.insertionSort sortRel l) := by
  intro l
  induction l with
  | nil => intro _; exact List.sorted_nil
  | cons a t ih =>
    intro hnn
    rw [List.insertionSort]
    apply orderedInsert_sorted_nonNaN
    · intro p hp
      exact hnn p (List.mem_cons_of_mem a ((List.mem_insertionSort sortRel).mp hp))
    · exact ih (fun p hp => hnn p (List.mem_cons_of_mem a hp))

/-- C8: the series construction sorts the kept pairs ascending by x with
a stable sort: the output is a permutation of the kept pairs, it is
sorted under the comparator order, and any two kept pairs with equal x
appear in the output in their original relative order. -/
theorem c8_stable_sort (dsX dsY : Dataset) (xc yc : String) :
    List.Perm (buildSeries dsX dsY xc yc) (keptSeriesPairs dsX dsY xc yc) ∧
    List.Sorted sortRel (buildSeries dsX dsY xc yc) ∧
    ∀ p q : SeriesPoint, p.x = q.x →
      List.Sublist [p, q] (keptSeriesPairs dsX dsY xc yc) →
      List.Sublist [p, q] (buildSeries dsX dsY xc yc) := by
  refine ⟨List.perm_insertionSort sortRel _, ?_, ?_⟩
  · exact sorted_insertionSort_nonNaN _ (fun p hp => kept_x_nonNaN hp)
  · intro p q hpq hsub
    exact List.pair_sublist_insertionSort (sortCmpLE_of_eq_x p q hpq) hsub

/-- Witness for C8 on a dataset with a duplicated x value: the two
equal-x points keep their original relative order in the built
series. -/
theorem c8_witness :
    List.Sublist [(⟨JSNum.fin 1, JSNum.fin 20⟩ : SeriesPoint), ⟨JSNum.fin 1, JSNum.fin 30⟩]
      (buildSeries
        ⟨"A", "a", [[("x", CellValue.num 2)], [("x", CellValue.num 1)],
          [("x", CellValue.num 1)]], ["x"], "c"⟩
        ⟨"B", "b", [[("y", CellValue.num 10)], [("y", CellValue.num 20)],
          [("y", CellValue.num 30)]], ["y"], "c"⟩ "x" "y") :=
  (c8_stable_sort
    ⟨"A", "a", [[("x", CellValue.num 2)], [("x", CellValue.num 1)],
      [("x", CellValue.num 1)]], ["x"], "c"⟩
    ⟨"B", "b", [[("y", CellValue.num 10)], [("y", CellValue.num 20)],
      [("y", CellValue.num 30)]], ["y"], "c"⟩ "x" "y").2.2
    ⟨JSNum.fin 1, JSNum.fin 20⟩ ⟨JSNum.fin 1, JSNum.fin 30⟩ rfl (by decide)

/-- The minimum of two non-NaN values is non-NaN. -/
theorem min2_nonNaN {a b : JSNum} (ha : a.isNaN = false) (hb : b.isNaN = false) :
    (JSNum.min2 a b).isNaN = false := by
  cases a <;> cases b <;> simp_all [JSNum.min2, JSNum.isNaN]

/-- The maximum of two non-NaN values is non-NaN. -/
theorem max2_nonNaN {a b : JSNum} (ha : a.isNaN = false) (hb : b.isNaN = false) :
    (JSNum.max2 a b).isNaN = false := by
  cases a <;> cases b <;> simp_all [JSNum.max2, JSNum.isNaN]

/-- The running minimum and maximum of the domain scan are never NaN,
from any non-NaN starting state. -/
theorem scan_go_nonNaN (vals : List JSNum) :
    ∀ st : JSNum × JSNum × Bool, st.1.isNaN = false → st.2.1.isNaN = false →
      (vals.foldl scanStep st).1.isNaN = false ∧
      (vals.foldl scanStep st).2.1.isNaN = false := by
  induction vals with
  | nil => intro st h1 h2; exact ⟨h1, h2⟩
  | cons v t ih =>
    intro st h1 h2
    simp only [List.foldl_cons]
    by_cases hv : v.isNaN = true
    · rw [show scanStep st v = st by simp [scanStep, hv]]
      exact ih st h1 h2
    · have hv' : v.isNaN = false := by simpa using hv
      rw [show scanStep st v = (JSNum.min2 st.1 v, JSNum.max2 st.2.1 v, true) by
        simp [scanStep, hv']]
      exact ih _ (min2_nonNaN h1 hv') (max2_nonNaN h2 hv')

/-- The scanned minimum and maximum are never NaN. -/
theorem scanMinMax_nonNaN (vals : List JSNum) :
    (scanMinMax vals).1.isNaN = false ∧ (scanMinMax vals).2.1.isNaN = false :=
  scan_go_nonNaN vals (JSNum.posInf, JSNum.negInf, false) rfl rfl

/-- A true strict equality implies equality. -/
theorem strictEq_imp_eq {a b : JSNum} (h : JSNum.strictEq a b = true) : a = b := by
  by_cases hn : (a.isNaN || b.isNaN) = true
  · simp [JSNum.strictEq, hn] at h
  · rw [JSNum.strictEq, if_neg hn] at h
    exact of_decide_eq_true h

/-- The padding and widening policy of `xDomainOfValues`, in terms of the
scanned minimum, maximum and range: a zero range widens by one on each
side, and any other range pads both ends by five percent of the range
(the infinite-range and equal-infinity cases collapse to the same NaN
results on both formulations). -/
theorem xDomainOfValues_spec (vals : List JSNum)
    (h : (scanMinMax vals).2.2 = true) :
    (JSNum.sub (scanMinMax vals).2.1 (scanMinMax vals).1 = JSNum.fin 0 →
      xDomainOfValues vals =
        some (JSNum.sub (scanMinMax vals).1 (JSNum.fin 1),
              JSNum.add (scanMinMax vals).2.1 (JSNum.fin 1))) ∧
    (JSNum.sub (scanMinMax vals).2.1 (scanMinMax vals).1 ≠ JSNum.fin 0 →
      xDomainOfValues vals =
        some (JSNum.sub (scanMinMax vals).1
                (JSNum.mul (JSNum.sub (scanMinMax vals).2.1 (scanMinMax vals).1)
                  (JSNum.fin (5 / 100))),
              JSNum.add (scanMinMax vals).2.1
                (JSNum.mul (JSNum.sub (scanMinMax vals).2.1 (scanMinMax vals).1)
                  (JSNum.fin (5 / 100))))) := by
  obtain ⟨hm, hM⟩ := scanMinMax_nonNaN vals
  rcases hscan : scanMinMax vals with ⟨m, M, b⟩
  rw [hscan] at h hm hM
  simp only at h hm hM
  subst h
  rw [xDomainOfValues, hscan]
  simp only
  rw [if_neg (by simp)]
  constructor
  · intro hr0
    rcases m with _ | _ | _ | a
    · simp [JSNum.isNaN] at hm
    · exfalso
      rcases M with _ | _ | _ | b' <;>
        simp [JSNum.sub, JSNum.add, JSNum.neg] at hr0
    · exfalso
      rcases M with _ | _ | _ | b' <;>
        simp [JSNum.sub, JSNum.add, JSNum.neg] at hr0
    · rcases M with _ | _ | _ | b'
      · simp [JSNum.isNaN] at hM
      · exfalso
        simp [JSNum.sub, JSNum.add, JSNum.neg] at hr0
      · exfalso
        simp [JSNum.sub, JSNum.add, JSNum.neg] at hr0
      · have hba : b' = a := by
          simp [JSNum.sub, JSNum.add, JSNum.neg] at hr0
          linarith
        subst hba
        simp [JSNum.strictEq, JSNum.isNaN, JSNum.sub, JSNum.add, JSNum.neg, JSNum.mul]
  · intro hr0
    by_cases hsame : JSNum.strictEq m M = true
    · have hmM := strictEq_imp_eq hsame
      subst hmM
      rcases m with _ | _ | _ | a
      · simp [JSNum.isNaN] at hm
      · rw [if_pos hsame]
        simp [JSNum.sub, JSNum.add, JSNum.neg, JSNum.mul]
      · rw [if_pos hsame]
        simp [JSNum.sub, JSNum.add, JSNum.neg, JSNum.mul]
      · exfalso
        apply hr0
        simp [JSNum.sub, JSNum.add, JSNum.neg]
    · rw [if_neg hsame]

/-- On an empty dataset collection the domain scan collects nothing. -/
theorem collectDomainValues_nil (config : ChartConfig) :
    collectDomainValues [] config = [] := by
  rw [collectDomainValues]
  have href : ∀ ref : ColumnRef, refValues [] ref = [] := by
    intro ref
    rw [refValues, findDataset]
    simp
  rw [List.flatMap_eq_nil_iff.mpr (fun x _ => href x)]
  by_cases hd : config.type = ChartType.diagonal
  · rw [if_pos hd]
    have h2 : config.yColumns.flatMap (fun col => refValues [] col.colRef) = [] :=
      List.flatMap_eq_nil_iff.mpr (fun col _ => href col.colRef)
    rw [h2]
    rfl
  · rw [if_neg hd]
    rfl

/-- C5: whenever the domain scan of a chart accepts at least one value,
the x-domain equals `(min - 1, max + 1)` when the range `max - min` is
zero, and `(min - 0.05·range, max + 0.05·range)` otherwise; in
particular the values `[10, 10, 10]` give exactly `(9, 11)` and the
values `[0, 100]` give exactly `(-5, 105)`. -/
theorem c5_domain_padding :
    (∀ (datasets : List Dataset) (config : ChartConfig),
      (scanMinMax (collectDomainValues datasets config)).2.2 = true →
      (JSNum.sub (scanMinMax (collectDomainValues datasets config)).2.1
          (scanMinMax (collectDomainValues datasets config)).1 = JSNum.fin 0 →
        xDomain datasets config =
          some (JSNum.sub (scanMinMax (collectDomainValues datasets config)).1
                  (JSNum.fin 1),
                JSNum.add (scanMinMax (collectDomainValues datasets config)).2.1
                  (JSNum.fin 1))) ∧
      (JSNum.sub (scanMinMax (collectDomainValues datasets config)).2.1
          (scanMinMax (collectDomainValues datasets config)).1 ≠ JSNum.fin 0 →
        xDomain datasets config =
          some (JSNum.sub (scanMinMax (collectDomainValues datasets config)).1
                  (JSNum.mul
                    (JSNum.sub (scanMinMax (collectDomainValues datasets config)).2.1
                      (scanMinMax (collectDomainValues datasets config)).1)
                    (JSNum.fin (5 / 100))),
                JSNum.add (scanMinMax (collectDomainValues datasets config)).2.1
                  (JSNum.mul
                    (JSNum.sub (scanMinMax (collectDomainValues datasets config)).2.1
                      (scanMinMax (collectDomainValues datasets config)).1)
                    (JSNum.fin (5 / 100)))))) ∧
    xDomainOfValues [JSNum.fin 10, JSNum.fin 10, JSNum.fin 10]
      = some (JSNum.fin 9, JSNum.fin 11) ∧
    xDomainOfValues [JSNum.fin 0, JSNum.fin 100]
      = some (JSNum.fin (-5), JSNum.fin 105) := by
  refine ⟨?_, ?_, ?_⟩
  · intro datasets config hvalid
    have hne : datasets ≠ [] := by
      intro hd
      subst hd
      rw [collectDomainValues_nil] at hvalid
      exact absurd hvalid (by decide)
    have hx : xDomain datasets config
        = xDomainOfValues (collectDomainValues datasets config) := by
      rw [xDomain, if_neg (by simpa [List.length_eq_zero] using hne)]
    rw [hx]
    exact xDomainOfValues_spec _ hvalid
  · simp [xDomainOfValues, scanMinMax, scanStep, JSNum.isNaN, JSNum.min2, JSNum.max2,
      JSNum.strictEq, JSNum.sub, JSNum.add, JSNum.neg, JSNum.mul]
    norm_num
  · simp [xDomainOfValues, scanMinMax, scanStep, JSNum.isNaN, JSNum.min2, JSNum.max2,
      JSNum.strictEq, JSNum.sub, JSNum.add, JSNum.neg, JSNum.mul]
    norm_num

/-- Witness for C5 on a one-row dataset with the single value `10`: the
degenerate-range branch applies. -/
theorem c5_witness :
    xDomain [⟨"A", "a", [[("x", CellValue.num 10)]], ["x"], "c"⟩]
      ⟨"c1", "t", ChartType.general, ⟨"A", "x"⟩, [], false, false, false⟩ =
      some (JSNum.sub
              (scanMinMax (collectDomainValues
                [⟨"A", "a", [[("x", CellValue.num 10)]], ["x"], "c"⟩]
                ⟨"c1", "t", ChartType.general, ⟨"A", "x"⟩, [], false, false, false⟩)).1
              (JSNum.fin 1),
            JSNum.add
              (scanMinMax (collectDomainValues
                [⟨"A", "a", [[("x", CellValue.num 10)]], ["x"], "c"⟩]
                ⟨"c1", "t", ChartType.general, ⟨"A", "x"⟩, [], false, false, false⟩)).2.1
              (JSNum.fin 1)) :=
  (c5_domain_padding.1 [⟨"A", "a", [[("x", CellValue.num 10)]], ["x"], "c"⟩]
    ⟨"c1", "t", ChartType.general, ⟨"A", "x"⟩, [], false, false, false⟩ (by decide)).1
    (by simp [collectDomainValues, activeXRefs, refValues, findDataset, resolveColumn,
      scanMinMax, scanStep, toNumber, rowGet, JSNum.isNaN, JSNum.min2, JSNum.max2,
      JSNum.sub, JSNum.add, JSNum.neg])
